import Mathlib

/-!
Verification of the navigation state engine of the GEO-Tracking repository
(file `src/components/geo-location.tsx`).

The numeric values flowing through the engine (headings, coordinates,
distances) are modelled as rationals; the JavaScript `%` remainder
(truncated division, sign of the dividend) is modelled by `jsMod`.
The pure geodesic helpers `getDistance` (haversine) and `geoToPixels`
(local pixel projection), which use transcendental functions, are modelled
over the reals.  The stateful hooks (`useCompass`, `useGeolocation`)
and effects (trail update, radar anchor update) are modelled as explicit
state-transition functions.  The trail and anchor state machines inspect
the distance helper only through threshold comparisons, so they are stated
for an arbitrary rational-valued distance function standing for
`getDistance`.
-/

namespace GeoTracking

/-! ## Definitions -/

/-- Truncation toward zero of a rational, as JavaScript division-based
remainders require. -/
def ratTrunc (q : ℚ) : ℤ := if 0 ≤ q then ⌊q⌋ else ⌈q⌉

/-- The JavaScript remainder `a % b`: truncated division, taking the sign
of the dividend. -/
def jsMod (a b : ℚ) : ℚ := a - b * ratTrunc (a / b)

/-- The source pattern `(x % 360 + 360) % 360`: normalization of an angle
into `[0, 360)`.  Used on the cumulative target heading
(`const currentMod = (current % 360 + 360) % 360;`). -/
def normalize360 (a : ℚ) : ℚ := jsMod (jsMod a 360 + 360) 360

/-- The source pattern `((degree) + 360) % 360` applied to the raw sensor
reading (`const normalized = ((degree) + 360) % 360;`). -/
def normalizeReading (d : ℚ) : ℚ := jsMod (d + 360) 360

/-- The shortest-rotation wrap of `useCompass.handleOrientation`:
`let delta = normalized - currentMod; if (delta > 180) delta -= 360;
if (delta < -180) delta += 360;`. -/
def wrapDelta (n m : ℚ) : ℚ :=
  let delta0 := n - m
  let delta1 := if 180 < delta0 then delta0 - 360 else delta0
  if delta1 < -180 then delta1 + 360 else delta1

/-- State owned by `useCompass` (second variant, lines 788–906): the
cumulative target heading (`targetRef.current`), the latest raw heading
state (`trueHeading`), and the animation flag (`isAnimating.current`). -/
structure CompassState where
  target : ℚ
  trueHeading : Option ℚ
  animating : Bool
deriving DecidableEq

/-- The orientation handler of the second `useCompass` variant (lines
867–896): normalize the reading, set `trueHeading`, compute the shortest
wrapped delta against the normalized cumulative target, and apply it to
`targetRef.current` (raising `isAnimating`) only when
`Math.abs(delta) > 0.5`. -/
def handleOrientation (degree : ℚ) (s : CompassState) : CompassState :=
  let normalized := normalizeReading degree
  let currentMod := normalize360 s.target
  let delta := wrapDelta normalized currentMod
  if 0.5 < |delta| then
    { target := s.target + delta, trueHeading := some normalized, animating := true }
  else
    { target := s.target, trueHeading := some normalized, animating := s.animating }

/-- Feed a sequence of raw readings to `handleOrientation` in order. -/
def runCompass (ds : List ℚ) (s : CompassState) : CompassState :=
  ds.foldl (fun a d => handleOrientation d a) s

/-- Initial `useCompass` state: `targetRef` starts at `0`, no reading yet,
not animating. -/
def compassInit : CompassState := ⟨0, none, false⟩

/-- One tick of the `useCompass` physics loop (lines 831–861, the body run
while `isAnimating.current` holds): if `Math.abs(diff) < 0.05` snap
`currentRef.current` to the target, otherwise advance it by
`diff * 0.15`. -/
def compassTick (target current : ℚ) : ℚ :=
  let diff := target - current
  if |diff| < 0.05 then target
  else current + diff * 0.15

/-- Iterate the physics-loop tick `n` times against a constant target. -/
def iterTick (target current : ℚ) : ℕ → ℚ
  | 0 => current
  | n + 1 => compassTick target (iterTick target current n)

/-- A JavaScript number: either `NaN` or an ordinary (rational) value. -/
inductive JsNum where
  | nan : JsNum
  | val : ℚ → JsNum
deriving DecidableEq

/-- Strict equality `===` on JavaScript numbers: `NaN === x` is `false`
for every `x`, including `NaN` itself. -/
def jsEq : JsNum → JsNum → Bool
  | .val a, .val b => a == b
  | _, _ => false

/-- Strict equality `===` on nullable JavaScript numbers
(`null === null` is `true`). -/
def jsEqOpt : Option JsNum → Option JsNum → Bool
  | none, none => true
  | some a, some b => jsEq a b
  | _, _ => false

/-- The `Coordinates` snapshot stored by `useGeolocation`. -/
structure Coordinates where
  latitude : JsNum
  longitude : JsNum
  accuracy : Option JsNum
  altitude : Option JsNum
  speed : Option JsNum
  heading : Option JsNum
deriving DecidableEq

/-- The state owned by `useGeolocation` (second variant, lines 717–786):
the React `GeoState` (`coords`, `error`, `loading`) together with the
`lastUpdate` timestamp ref (milliseconds). -/
structure GeoModel where
  coords : Option Coordinates
  error : Option String
  loading : Bool
  lastUpdate : ℤ
deriving DecidableEq

/-- Initial `useGeolocation` state: `{ coords: null, error: null,
loading: true }` with the `lastUpdate` ref starting at `0`. -/
def geoInit : GeoModel := ⟨none, none, true, 0⟩

/-- The dedup test of `handleSuccess`: the stored and incoming samples are
`===`-equal in latitude, longitude, speed and heading. -/
def coordsShallowEq (p c : Coordinates) : Bool :=
  jsEq p.latitude c.latitude && jsEq p.longitude c.longitude &&
    jsEqOpt p.speed c.speed && jsEqOpt p.heading c.heading

/-- The success handler of the second `useGeolocation` variant (lines
727–754): drop the sample inside the 500 ms throttle window, stamp
`lastUpdate`, coalesce a sample `===`-equal to the stored one in
latitude/longitude/speed/heading, and otherwise store the sample with
`error` cleared and `loading` off. -/
def handleSuccess (now : ℤ) (c : Coordinates) (m : GeoModel) : GeoModel :=
  if now - m.lastUpdate < 500 then m
  else
    match m.coords with
    | some p =>
      if coordsShallowEq p c then { m with lastUpdate := now }
      else ⟨some c, none, false, now⟩
    | none => ⟨some c, none, false, now⟩

/-- The error codes of `GeolocationPositionError` (`unknown` stands for
any other value of `error.code`, which falls through the `switch` and
keeps the default message). -/
inductive GeoErrorCode where
  | permissionDenied : GeoErrorCode
  | positionUnavailable : GeoErrorCode
  | timeout : GeoErrorCode
  | unknown : GeoErrorCode
deriving DecidableEq

/-- The error handler of the second `useGeolocation` variant (lines
756–770): on `TIMEOUT` it returns without touching the state (the source
comment reads: do not clear old coords on timeout); the other codes set an
error message and clear `loading`, keeping `coords`. -/
def handleError (code : GeoErrorCode) (m : GeoModel) : GeoModel :=
  match code with
  | .timeout => m
  | .permissionDenied =>
    { m with error := some ("Location access denied"), loading := false }
  | .positionUnavailable =>
    { m with error := some ("Position unavailable"), loading := false }
  | .unknown => { m with error := some ("Signal Lost"), loading := false }

/-- The React-visible part of the sampler state (the `GeoState` value,
without the `lastUpdate` ref). -/
def geoPart (m : GeoModel) : Option Coordinates × Option String × Bool :=
  (m.coords, m.error, m.loading)

/-- A position sample whose latitude is `NaN`. -/
def nanSample : Coordinates := ⟨JsNum.nan, JsNum.val 0, none, none, none, none⟩

/-- A stored point of the visual trail
(`{ lat, lng, id: Date.now(), timestamp: Date.now() }`). -/
structure GeoPoint where
  lat : ℚ
  lng : ℚ
  id : ℤ
  timestamp : ℤ
deriving DecidableEq

/-- The path-update effect body (lines 1231–1255): build the new point; an
empty trail becomes `[newPoint]`; otherwise append only when the distance
from the last stored point exceeds `TRAIL_MIN_DISTANCE = 5`, and on
overflow of `TRAIL_MAX_POINTS = 100` keep the last 100 points
(`newPath.slice(newPath.length - TRAIL_MAX_POINTS)`).  The distance
function parameter stands for the haversine `getDistance` of the source,
which the effect inspects only through threshold comparisons. -/
def updatePath (dist : ℚ → ℚ → ℚ → ℚ → ℚ) (lat lng : ℚ) (ts : ℤ)
    (prev : List GeoPoint) : List GeoPoint :=
  let newPoint : GeoPoint := ⟨lat, lng, ts, ts⟩
  match prev.getLast? with
  | none => [newPoint]
  | some last =>
    if 5 < dist last.lat last.lng lat lng then
      let newPath := prev ++ [newPoint]
      if 100 < newPath.length then newPath.drop (newPath.length - 100) else newPath
    else prev

/-- Run the path-update effect over a stream of samples, starting from the
empty trail. -/
def runTrail (dist : ℚ → ℚ → ℚ → ℚ → ℚ) (samples : List (ℚ × ℚ × ℤ)) :
    List GeoPoint :=
  samples.foldl (fun acc s => updatePath dist s.1 s.2.1 s.2.2 acc) []

/-- Consecutive trail points are farther than `5` apart under `dist`. -/
def TrailSpaced (dist : ℚ → ℚ → ℚ → ℚ → ℚ) (l : List GeoPoint) : Prop :=
  l.Chain' fun p q => 5 < dist p.lat p.lng q.lat q.lng

/-- State owned by `RadarMapbox` (second variant): the projection anchor,
the `isOffCenter` UI flag, and the background-image flags invalidated on
re-anchor. -/
structure RadarState where
  anchorLat : ℚ
  anchorLng : ℚ
  isOffCenter : Bool
  imgLoaded : Bool
  mapError : Bool
deriving DecidableEq

/-- The `RadarMapbox` anchor effect (lines 941–950): compute the distance
from the anchor to the live position, set `isOffCenter` from the small
threshold (`10`), and move the anchor (invalidating the cached image) only
beyond `MAP_UPDATE_THRESHOLD = 40`. -/
def radarUpdate (dist : ℚ → ℚ → ℚ → ℚ → ℚ) (lat lng : ℚ) (s : RadarState) :
    RadarState :=
  let distance := dist s.anchorLat s.anchorLng lat lng
  let s₁ := { s with isOffCenter := decide (10 < distance) }
  if 40 < distance then
    { s₁ with anchorLat := lat, anchorLng := lng, imgLoaded := false, mapError := false }
  else s₁

/-- The radar display mode (`'heading-up' | 'north-up'`). -/
inductive MapMode where
  | headingUp : MapMode
  | northUp : MapMode
deriving DecidableEq

/-- Line 971: `const rotation = mode === 'heading-up' ? heading : 0;`. -/
def rotationVar (mode : MapMode) (heading : ℚ) : ℚ :=
  if mode = .headingUp then heading else 0

/-- The rotation applied to the whole radar scene, line 981:
`transform: rotate(${-rotation}deg)`. -/
def sceneRotation (mode : MapMode) (heading : ℚ) : ℚ :=
  -(rotationVar mode heading)

/-- Line 972: `const markerRotation = mode === 'heading-up' ? 0 : heading;`. -/
def markerRotation (mode : MapMode) (heading : ℚ) : ℚ :=
  if mode = .headingUp then 0 else heading

/-- The JavaScript function `Math.atan2(y, x)`: the argument of the
complex number `x + y i`. -/
noncomputable def atan2 (y x : ℝ) : ℝ := Complex.arg ⟨x, y⟩

/-- The helper `getDistance` (lines 697–706): the haversine great-circle
distance in meters with `R = 6371e3`. -/
noncomputable def getDistance (lat1 lon1 lat2 lon2 : ℝ) : ℝ :=
  let R : ℝ := 6371000
  let phi1 := lat1 * Real.pi / 180
  let phi2 := lat2 * Real.pi / 180
  let dPhi := (lat2 - lat1) * Real.pi / 180
  let dLam := (lon2 - lon1) * Real.pi / 180
  let a := Real.sin (dPhi / 2) * Real.sin (dPhi / 2) +
    Real.cos phi1 * Real.cos phi2 * Real.sin (dLam / 2) * Real.sin (dLam / 2)
  let c := 2 * atan2 (Real.sqrt a) (Real.sqrt (1 - a))
  R * c

/-- The helper `geoToPixels` (lines 708–714): pixel offset of a point
relative to the anchor at a Web-Mercator-style scale of
`earthCircumference * cos(anchorLat) / 2 ^ (zoom + 8)` meters per pixel. -/
noncomputable def geoToPixels (lat lng anchorLat anchorLng : ℝ) (zoom : ℕ) :
    ℝ × ℝ :=
  let earthCircumference : ℝ := 40075016.686
  let metersPerPx := earthCircumference * Real.cos (anchorLat * Real.pi / 180) /
    2 ^ (zoom + 8)
  let dLat := (lat - anchorLat) * 111319.9
  let dLng := (lng - anchorLng) * 111319.9 * Real.cos (anchorLat * Real.pi / 180)
  (dLng / metersPerPx, -dLat / metersPerPx)

/-! ## Angle arithmetic lemmas -/

lemma jsMod_bounds_of_nonneg (a : ℚ) (ha : 0 ≤ a) :
    0 ≤ jsMod a 360 ∧ jsMod a 360 < 360 := by
  have hq : 0 ≤ a / 360 := by positivity
  have h1 : ((⌊a / 360⌋ : ℚ)) ≤ a / 360 := Int.floor_le _
  have h2 : a / 360 < (⌊a / 360⌋ : ℚ) + 1 := Int.lt_floor_add_one _
  have h1' : (360 : ℚ) * (⌊a / 360⌋ : ℚ) ≤ 360 * (a / 360) :=
    mul_le_mul_of_nonneg_left h1 (by norm_num)
  have h2' : (360 : ℚ) * (a / 360) < 360 * ((⌊a / 360⌋ : ℚ) + 1) :=
    (mul_lt_mul_left (by norm_num)).2 h2
  rw [jsMod, ratTrunc, if_pos hq]
  constructor <;> nlinarith [h1', h2']

lemma jsMod_bounds_of_neg (a : ℚ) (ha : a < 0) :
    -360 < jsMod a 360 ∧ jsMod a 360 ≤ 0 := by
  have hq : ¬ (0 ≤ a / 360) := by
    push_neg
    exact div_neg_of_neg_of_pos ha (by norm_num)
  have h1 : a / 360 ≤ ((⌈a / 360⌉ : ℚ)) := Int.le_ceil _
  have h2 : ((⌈a / 360⌉ : ℚ)) < a / 360 + 1 := Int.ceil_lt_add_one _
  have h1' : (360 : ℚ) * (a / 360) ≤ 360 * (⌈a / 360⌉ : ℚ) :=
    mul_le_mul_of_nonneg_left h1 (by norm_num)
  have h2' : (360 : ℚ) * (⌈a / 360⌉ : ℚ) < 360 * (a / 360 + 1) :=
    (mul_lt_mul_left (by norm_num)).2 h2
  rw [jsMod, ratTrunc, if_neg hq]
  constructor <;> nlinarith [h1', h2']

/-- The remainder `jsMod a 360` differs from `a` by an integer multiple of
`360`. -/
lemma jsMod_congr (a : ℚ) : ∃ k : ℤ, jsMod a 360 = a + 360 * k := by
  exact ⟨-ratTrunc (a / 360), by rw [jsMod]; push_cast; ring⟩

lemma normalize360_bounds (a : ℚ) :
    0 ≤ normalize360 a ∧ normalize360 a < 360 := by
  rw [normalize360]
  apply jsMod_bounds_of_nonneg
  rcases le_or_lt 0 a with ha | ha
  · have := (jsMod_bounds_of_nonneg a ha).1
    linarith
  · have := (jsMod_bounds_of_neg a ha).1
    linarith

lemma normalize360_congr (a : ℚ) : ∃ k : ℤ, normalize360 a = a + 360 * k := by
  obtain ⟨k₁, hk₁⟩ := jsMod_congr a
  obtain ⟨k₂, hk₂⟩ := jsMod_congr (jsMod a 360 + 360)
  refine ⟨k₁ + k₂ + 1, ?_⟩
  rw [normalize360, hk₂, hk₁]
  push_cast
  ring

/-- Two angles in `[0, 360)` that are congruent mod `360` are equal. -/
lemma eq_of_bounds_of_congr (x y : ℚ) (k : ℤ)
    (hx0 : 0 ≤ x) (hx1 : x < 360) (hy0 : 0 ≤ y) (hy1 : y < 360)
    (h : x = y + 360 * k) : x = y := by
  have hk0 : (360 : ℚ) * k < 360 := by linarith
  have hk1 : (-360 : ℚ) < 360 * k := by linarith
  have hklt : (k : ℚ) < 1 := by linarith
  have hkgt : (-1 : ℚ) < (k : ℚ) := by linarith
  have hz : k = 0 := by
    have h1 : k < 1 := by exact_mod_cast hklt
    have h2 : -1 < k := by exact_mod_cast hkgt
    omega
  simp [hz] at h
  exact h

/-- Evaluate `normalize360` at a concrete angle from a decomposition
`a = 360 * k + r` with `r` in `[0, 360)`. -/
lemma normalize360_eval (a r : ℚ) (k : ℤ) (h : a = 360 * k + r)
    (h0 : 0 ≤ r) (h1 : r < 360) : normalize360 a = r := by
  obtain ⟨k', hk'⟩ := normalize360_congr a
  obtain ⟨hb0, hb1⟩ := normalize360_bounds a
  refine eq_of_bounds_of_congr _ _ (k + k') hb0 hb1 h0 h1 ?_
  rw [hk', h]
  push_cast
  ring

/-- Same evaluator for `normalizeReading`: on readings with `d + 360 ≥ 0`
the single-`%` pattern agrees with full normalization. -/
lemma normalizeReading_eval (d r : ℚ) (k : ℤ) (h : d = 360 * k + r)
    (hd : 0 ≤ d + 360) (h0 : 0 ≤ r) (h1 : r < 360) :
    normalizeReading d = r := by
  obtain ⟨k', hk'⟩ := jsMod_congr (d + 360)
  obtain ⟨hb0, hb1⟩ := jsMod_bounds_of_nonneg (d + 360) hd
  rw [normalizeReading] at *
  refine eq_of_bounds_of_congr _ _ (k + k' + 1) hb0 hb1 h0 h1 ?_
  rw [hk', h]
  push_cast
  ring

lemma normalizeReading_bounds (d : ℚ) (hd : 0 ≤ d) :
    0 ≤ normalizeReading d ∧ normalizeReading d < 360 :=
  jsMod_bounds_of_nonneg (d + 360) (by linarith)

lemma normalizeReading_congr (d : ℚ) :
    ∃ k : ℤ, normalizeReading d = d + 360 * k := by
  obtain ⟨k, hk⟩ := jsMod_congr (d + 360)
  exact ⟨k + 1, by rw [normalizeReading, hk]; push_cast; ring⟩

/-- The wrapped delta of two normalized angles lies in `[-180, 180]`. -/
lemma wrapDelta_bounds (n m : ℚ) (hn0 : 0 ≤ n) (hn1 : n < 360)
    (hm0 : 0 ≤ m) (hm1 : m < 360) :
    -180 ≤ wrapDelta n m ∧ wrapDelta n m ≤ 180 := by
  rw [wrapDelta]
  split_ifs <;> constructor <;> linarith

/-- The wrapped delta is congruent to `n - m` mod `360`. -/
lemma wrapDelta_congr (n m : ℚ) : ∃ k : ℤ, wrapDelta n m = n - m + 360 * k := by
  rw [wrapDelta]
  split_ifs
  · exact ⟨0, by push_cast; ring⟩
  · exact ⟨-1, by push_cast; ring⟩
  · exact ⟨1, by push_cast; ring⟩
  · exact ⟨0, by push_cast; ring⟩

/-- Evaluate one `handleOrientation` application from evaluations of its
three angle computations, in the significant-delta case. -/
lemma handleOrientation_eval (degree : ℚ) (s : CompassState) (n m d : ℚ)
    (hn : normalizeReading degree = n) (hm : normalize360 s.target = m)
    (hd : wrapDelta n m = d) (h : 0.5 < |d|) :
    handleOrientation degree s = ⟨s.target + d, some n, true⟩ := by
  rw [handleOrientation, hn, hm, hd]
  simp only [if_pos h]

lemma compassStep1 : runCompass [350] compassInit = ⟨-10, some 350, true⟩ := by
  show handleOrientation 350 compassInit = _
  rw [handleOrientation_eval 350 compassInit 350 0 (-10)
    (normalizeReading_eval _ _ 0 (by norm_num) (by norm_num) (by norm_num) (by norm_num))
    (normalize360_eval _ _ 0 (by norm_num [compassInit]) (by norm_num) (by norm_num))
    (by norm_num [wrapDelta]) (by norm_num)]
  norm_num [compassInit]

lemma compassStep2 : runCompass [350, 5] compassInit = ⟨5, some 5, true⟩ := by
  show handleOrientation 5 (runCompass [350] compassInit) = _
  rw [compassStep1]
  rw [handleOrientation_eval 5 ⟨-10, some 350, true⟩ 5 350 15
    (normalizeReading_eval _ _ 0 (by norm_num) (by norm_num) (by norm_num) (by norm_num))
    (normalize360_eval _ _ (-1) (by norm_num) (by norm_num) (by norm_num))
    (by norm_num [wrapDelta]) (by norm_num)]
  norm_num

lemma compassStep3 : runCompass [350, 5, 350] compassInit = ⟨-10, some 350, true⟩ := by
  show handleOrientation 350 (runCompass [350, 5] compassInit) = _
  rw [compassStep2]
  rw [handleOrientation_eval 350 ⟨5, some 5, true⟩ 350 5 (-15)
    (normalizeReading_eval _ _ 0 (by norm_num) (by norm_num) (by norm_num) (by norm_num))
    (normalize360_eval _ _ 0 (by norm_num) (by norm_num) (by norm_num))
    (by norm_num [wrapDelta]) (by norm_num)]
  norm_num

lemma compassStep4 : runCompass [350, 5, 350, 5] compassInit = ⟨5, some 5, true⟩ := by
  show handleOrientation 5 (runCompass [350, 5, 350] compassInit) = _
  rw [compassStep3]
  rw [handleOrientation_eval 5 ⟨-10, some 350, true⟩ 5 350 15
    (normalizeReading_eval _ _ 0 (by norm_num) (by norm_num) (by norm_num) (by norm_num))
    (normalize360_eval _ _ (-1) (by norm_num) (by norm_num) (by norm_num))
    (by norm_num [wrapDelta]) (by norm_num)]
  norm_num

/-! ## Claim C1 (shortest-path accumulation) -/

/-- C1 — the claim as stated is refuted by the jitter deadband: with the
cumulative target at `0`, the raw reading `0.3` has shortest wrapped delta
`0.3`, yet `handleOrientation` leaves the target unchanged (its change is
`0`, not the shortest delta). -/
theorem handleOrientation_not_always_shortest_delta :
    (handleOrientation 0.3 compassInit).target - compassInit.target
      ≠ wrapDelta (normalizeReading 0.3) (normalize360 compassInit.target) := by
  have hn : normalizeReading 0.3 = 0.3 :=
    normalizeReading_eval _ _ 0 (by norm_num) (by norm_num) (by norm_num) (by norm_num)
  have hm : normalize360 compassInit.target = 0 :=
    normalize360_eval _ _ 0 (by norm_num [compassInit]) (by norm_num) (by norm_num)
  have hd : wrapDelta (0.3 : ℚ) 0 = 0.3 := by norm_num [wrapDelta]
  have he : handleOrientation 0.3 compassInit
      = ⟨compassInit.target, some 0.3, compassInit.animating⟩ := by
    rw [handleOrientation, hn, hm, hd]
    rw [if_neg (by norm_num [not_lt, abs_le])]
  rw [he, hn, hm, hd]
  norm_num [compassInit]

/-- C1 (amended) — every `handleOrientation` update on a nonnegative raw
reading either applies exactly the shortest angular delta between the
normalized reading and the normalized cumulative target — a delta that is
always in `[-180, 180]` and congruent to their difference mod 360 — or,
when that delta has magnitude within the `0.5°` jitter deadband, leaves
the target unchanged; the target never jumps by more than `180°`, and the
reading sequence `[350, 5, 350, 5]` produces the target deltas
`[+15, -15, +15]` after the first reading. -/
theorem handleOrientation_shortest_path (degree : ℚ) (s : CompassState)
    (h0 : 0 ≤ degree) :
    (-180 ≤ wrapDelta (normalizeReading degree) (normalize360 s.target) ∧
      wrapDelta (normalizeReading degree) (normalize360 s.target) ≤ 180) ∧
    (∃ k : ℤ, wrapDelta (normalizeReading degree) (normalize360 s.target)
      = normalizeReading degree - normalize360 s.target + 360 * k) ∧
    (0.5 < |wrapDelta (normalizeReading degree) (normalize360 s.target)| →
      (handleOrientation degree s).target
        = s.target + wrapDelta (normalizeReading degree) (normalize360 s.target)) ∧
    (|wrapDelta (normalizeReading degree) (normalize360 s.target)| ≤ 0.5 →
      (handleOrientation degree s).target = s.target) ∧
    |(handleOrientation degree s).target - s.target| ≤ 180 ∧
    ((runCompass [350, 5] compassInit).target
        - (runCompass [350] compassInit).target = 15 ∧
      (runCompass [350, 5, 350] compassInit).target
        - (runCompass [350, 5] compassInit).target = -15 ∧
      (runCompass [350, 5, 350, 5] compassInit).target
        - (runCompass [350, 5, 350] compassInit).target = 15) := by
  obtain ⟨hn0, hn1⟩ := normalizeReading_bounds degree h0
  obtain ⟨hm0, hm1⟩ := normalize360_bounds s.target
  obtain ⟨hw0, hw1⟩ := wrapDelta_bounds _ _ hn0 hn1 hm0 hm1
  refine ⟨⟨hw0, hw1⟩, wrapDelta_congr _ _, ?_, ?_, ?_, ?_⟩
  · intro h
    rw [handleOrientation, if_pos h]
  · intro h
    rw [handleOrientation, if_neg (not_lt.2 h)]
  · by_cases h : 0.5 < |wrapDelta (normalizeReading degree) (normalize360 s.target)|
    · rw [handleOrientation, if_pos h]
      simp only [add_sub_cancel_left]
      rw [abs_le]
      exact ⟨hw0, hw1⟩
    · rw [handleOrientation, if_neg h]
      simp
  · rw [compassStep1, compassStep2, compassStep3, compassStep4]
    norm_num

/-- C1 witness at reading `350` from the initial state. -/
theorem handleOrientation_shortest_path_witness :
    (handleOrientation 350 compassInit).target
      = compassInit.target
        + wrapDelta (normalizeReading 350) (normalize360 compassInit.target) := by
  have h := (handleOrientation_shortest_path 350 compassInit (by norm_num)).2.2.1
  apply h
  rw [normalizeReading_eval 350 350 0 (by norm_num) (by norm_num) (by norm_num) (by norm_num),
    normalize360_eval compassInit.target 0 0 (by norm_num [compassInit]) (by norm_num)
      (by norm_num)]
  norm_num [wrapDelta]

/-! ## Claim C10 (jitter deadband) -/

/-- C10 — a reading whose shortest wrapped delta from the cumulative
target is within the `0.5°` deadband leaves both `targetRef` and the
animation flag unchanged, while `trueHeading` is still updated to the
normalized reading. -/
theorem handleOrientation_deadband (degree : ℚ) (s : CompassState)
    (h : |wrapDelta (normalizeReading degree) (normalize360 s.target)| ≤ 0.5) :
    (handleOrientation degree s).target = s.target ∧
    (handleOrientation degree s).animating = s.animating ∧
    (handleOrientation degree s).trueHeading = some (normalizeReading degree) := by
  rw [handleOrientation, if_neg (not_lt.2 h)]
  exact ⟨rfl, rfl, rfl⟩

/-- C10 witness: reading `0.3` against target `0` (delta `0.3 ≤ 0.5`)
leaves the target at `0` and the animation flag down, but records
`trueHeading = 0.3`. -/
theorem handleOrientation_deadband_witness :
    (handleOrientation 0.3 compassInit).target = compassInit.target ∧
    (handleOrientation 0.3 compassInit).animating = compassInit.animating ∧
    (handleOrientation 0.3 compassInit).trueHeading = some (normalizeReading 0.3) := by
  apply handleOrientation_deadband
  rw [normalizeReading_eval 0.3 0.3 0 (by norm_num) (by norm_num) (by norm_num) (by norm_num),
    normalize360_eval compassInit.target 0 0 (by norm_num [compassInit]) (by norm_num)
      (by norm_num)]
  norm_num [wrapDelta, abs_le]

/-! ## Claim C2 (convergence of the physics loop) -/

lemma compassTick_contract (t x : ℚ) :
    |t - compassTick t x| ≤ 17 / 20 * |t - x| := by
  rw [compassTick]
  split_ifs with h
  · simp only [sub_self, abs_zero]
    positivity
  · have he : t - (x + (t - x) * 0.15) = 17 / 20 * (t - x) := by
      rw [show (0.15 : ℚ) = 3 / 20 by norm_num]
      ring
    rw [he, abs_mul, abs_of_nonneg (by norm_num : (0 : ℚ) ≤ 17 / 20)]

lemma iterTick_contract (t c : ℚ) (n : ℕ) :
    |t - iterTick t c n| ≤ (17 / 20) ^ n * |t - c| := by
  induction n with
  | zero => simp [iterTick]
  | succ n ih =>
    calc |t - iterTick t c (n + 1)|
        = |t - compassTick t (iterTick t c n)| := rfl
      _ ≤ 17 / 20 * |t - iterTick t c n| := compassTick_contract _ _
      _ ≤ 17 / 20 * ((17 / 20) ^ n * |t - c|) :=
          mul_le_mul_of_nonneg_left ih (by norm_num)
      _ = (17 / 20) ^ (n + 1) * |t - c| := by ring

lemma compassTick_snap (t x : ℚ) (h : |t - x| < 0.05) : compassTick t x = t := by
  rw [compassTick, if_pos h]

lemma iterTick_stay (t x : ℚ) (h : |t - x| < 0.05) (k : ℕ) :
    |t - iterTick t x k| < 0.05 := by
  induction k with
  | zero => simpa [iterTick] using h
  | succ k ih =>
    show |t - compassTick t (iterTick t x k)| < 0.05
    rw [compassTick_snap t _ ih]
    norm_num

lemma iterTick_add (t c : ℚ) (a b : ℕ) :
    iterTick t c (a + b) = iterTick t (iterTick t c a) b := by
  induction b with
  | zero => rfl
  | succ b ih => show compassTick t (iterTick t c (a + b)) = _; rw [ih]; rfl

lemma iterTick_reaches (t c : ℚ) : ∃ N : ℕ, |t - iterTick t c N| < 0.05 := by
  obtain ⟨n₀, hn₀⟩ := exists_nat_gt (20 * |t - c|)
  refine ⟨6 * n₀, ?_⟩
  have hb : (1 : ℚ) + (6 * n₀ : ℕ) * (3 / 17) ≤ (1 + 3 / 17) ^ (6 * n₀) :=
    one_add_mul_le_pow (by norm_num) _
  have h1 : ((n₀ : ℚ)) ≤ 1 + (6 * n₀ : ℕ) * (3 / 17) := by
    push_cast
    have hpos : (0 : ℚ) ≤ (n₀ : ℚ) := by positivity
    linarith
  have h2 : (20 : ℚ) * |t - c| < (20 / 17) ^ (6 * n₀) := by
    calc (20 : ℚ) * |t - c| < n₀ := hn₀
      _ ≤ 1 + (6 * n₀ : ℕ) * (3 / 17) := h1
      _ ≤ (1 + 3 / 17) ^ (6 * n₀) := hb
      _ = (20 / 17) ^ (6 * n₀) := by norm_num
  have hp : (0 : ℚ) < (20 / 17) ^ (6 * n₀) := by positivity
  have h4 : (17 / 20 : ℚ) ^ (6 * n₀) * |t - c| < 1 / 20 := by
    have hinv : (17 / 20 : ℚ) ^ (6 * n₀) = ((20 / 17) ^ (6 * n₀))⁻¹ := by
      rw [← inv_pow]
      norm_num
    rw [hinv, inv_mul_lt_iff₀ hp]
    nlinarith
  calc |t - iterTick t c (6 * n₀)|
      ≤ (17 / 20) ^ (6 * n₀) * |t - c| := iterTick_contract _ _ _
    _ < 1 / 20 := h4
    _ = 0.05 := by norm_num

/-- C2 — against a constant target, iterating the physics-loop tick brings
`currentRef` within `ε = 0.05` of the target after finitely many ticks,
and any value already within `ε` stays within `ε` on all later ticks. -/
theorem compassTick_convergence (t c : ℚ) :
    (∃ N : ℕ, ∀ n : ℕ, N ≤ n → |t - iterTick t c n| < 0.05) ∧
    (∀ x : ℚ, |t - x| < 0.05 → ∀ k : ℕ, |t - iterTick t x k| < 0.05) := by
  constructor
  · obtain ⟨N, hN⟩ := iterTick_reaches t c
    refine ⟨N, fun n hn => ?_⟩
    obtain ⟨k, rfl⟩ := Nat.exists_eq_add_of_le hn
    rw [iterTick_add]
    exact iterTick_stay t _ hN k
  · exact fun x hx k => iterTick_stay t x hx k

/-- C2 witness: starting exactly at the target, three more ticks keep the
value within `ε` of the target. -/
theorem compassTick_convergence_witness :
    |(10 : ℚ) - iterTick 10 10 3| < 0.05 :=
  (compassTick_convergence 10 0).2 10 (by norm_num) 3

/-! ## Claim C4 (NaN rejection) -/

/-- C4 — counterexample to the claimed NaN rejection: a sample with `NaN`
latitude arriving outside the throttle window is stored and emitted as-is
by `handleSuccess`; nothing in the sampler drops it. -/
theorem handleSuccess_nan_not_rejected :
    (handleSuccess 1000 nanSample geoInit).coords = some nanSample ∧
    nanSample.latitude = JsNum.nan := by
  constructor
  · rfl
  · rfl

/-- C4 (amended) — the sampler performs no NaN validation: any sample that
passes the 500 ms throttle and has `NaN` latitude is always stored (it can
never be coalesced, since `NaN === NaN` is false), so emitted positions
are not guaranteed finite. -/
theorem handleSuccess_no_nan_filter (now : ℤ) (c : Coordinates) (m : GeoModel)
    (ht : ¬ now - m.lastUpdate < 500) (hnan : c.latitude = JsNum.nan) :
    (handleSuccess now c m).coords = some c ∧
    (handleSuccess now c m).error = none := by
  have hne : ∀ p : Coordinates, coordsShallowEq p c = false := by
    intro p
    rw [coordsShallowEq, hnan]
    have hf : jsEq p.latitude JsNum.nan = false := by
      cases p.latitude <;> rfl
    rw [hf]
    simp
  rw [handleSuccess, if_neg ht]
  cases hc : m.coords with
  | none => exact ⟨rfl, rfl⟩
  | some p => simp [hne p]

/-- C4 witness for the amended claim, at the concrete NaN sample. -/
theorem handleSuccess_no_nan_filter_witness :
    (handleSuccess 1000 nanSample geoInit).coords = some nanSample ∧
    (handleSuccess 1000 nanSample geoInit).error = none :=
  handleSuccess_no_nan_filter 1000 nanSample geoInit (by norm_num [geoInit]) rfl

/-! ## Claim C6 (throttle and coalescing) -/

/-- C6 — the sampler is a 500 ms throttle plus a coalescing filter: inside
the throttle window the state is untouched (no emission); outside it the
`lastUpdate` stamp is set to `now`, so the next emission is at least
500 ms later; and a sample `===`-equal to the stored one in latitude,
longitude, speed and heading leaves the React-visible `GeoState`
unchanged. -/
theorem handleSuccess_throttle_coalesce (now : ℤ) (c : Coordinates)
    (m : GeoModel) (p : Coordinates) :
    (now - m.lastUpdate < 500 → handleSuccess now c m = m) ∧
    (¬ now - m.lastUpdate < 500 → (handleSuccess now c m).lastUpdate = now) ∧
    (m.coords = some p → coordsShallowEq p c = true →
      geoPart (handleSuccess now c m) = geoPart m) := by
    refine ⟨?_, ?_, ?_⟩
    · intro h
      rw [handleSuccess, if_pos h]
    · intro h
      rw [handleSuccess, if_neg h]
      cases m.coords with
      | none => rfl
      | some q =>
        by_cases hq : coordsShallowEq q c
        · simp [hq]
        · simp [hq]
    · intro hc heq
      rw [handleSuccess]
      by_cases ht : now - m.lastUpdate < 500
      · rw [if_pos ht]
      · rw [if_neg ht, hc]
        simp [heq, geoPart, hc]

/-- C6 witness: a sample arriving at `t = 0` (inside the initial window)
is dropped; one arriving at `t = 1000` stamps `lastUpdate`; a duplicate of
the stored sample leaves the `GeoState` unchanged. -/
theorem handleSuccess_throttle_coalesce_witness :
    handleSuccess 0 nanSample geoInit = geoInit ∧
    (handleSuccess 1000 nanSample geoInit).lastUpdate = 1000 ∧
    geoPart (handleSuccess 1000 ⟨JsNum.val 1, JsNum.val 2, none, none, none, none⟩
        ⟨some ⟨JsNum.val 1, JsNum.val 2, none, none, none, none⟩, none, false, 0⟩)
      = geoPart ⟨some ⟨JsNum.val 1, JsNum.val 2, none, none, none, none⟩, none, false, 0⟩ := by
  refine ⟨?_, ?_, ?_⟩
  · exact (handleSuccess_throttle_coalesce 0 nanSample geoInit nanSample).1
      (by norm_num [geoInit])
  · exact (handleSuccess_throttle_coalesce 1000 nanSample geoInit nanSample).2.1
      (by norm_num [geoInit])
  · exact (handleSuccess_throttle_coalesce 1000 _ _
      ⟨JsNum.val 1, JsNum.val 2, none, none, none, none⟩).2.2 rfl (by rfl)

/-! ## Claim C7 (timeout keeps last-known-good position) -/

/-- C7 — a transient timeout error leaves the whole sampler state (in
particular the last-known-good `coords`) untouched, while
permission-denied and position-unavailable keep `coords` but surface an
error state and clear `loading`. -/
theorem handleError_timeout_keeps_coords (m : GeoModel) :
    handleError .timeout m = m ∧
    (handleError .permissionDenied m).coords = m.coords ∧
    (handleError .permissionDenied m).error = some ("Location access denied") ∧
    (handleError .permissionDenied m).loading = false ∧
    (handleError .positionUnavailable m).coords = m.coords ∧
    (handleError .positionUnavailable m).error = some ("Position unavailable") ∧
    (handleError .positionUnavailable m).loading = false :=
  ⟨rfl, rfl, rfl, rfl, rfl, rfl, rfl⟩

/-! ## Claim C3 (trail-buffer invariants) -/

lemma chain'_drop {α : Type} {R : α → α → Prop} {l : List α}
    (h : l.Chain' R) (n : ℕ) : (l.drop n).Chain' R := by
  induction n generalizing l with
  | zero => simpa using h
  | succ n ih =>
    cases l with
    | nil => simp
    | cons a l => exact ih h.tail

lemma updatePath_eval (dist : ℚ → ℚ → ℚ → ℚ → ℚ) (lat lng : ℚ) (ts : ℤ)
    (prev : List GeoPoint) (last : GeoPoint) (hl : prev.getLast? = some last) :
    updatePath dist lat lng ts prev
      = if 5 < dist last.lat last.lng lat lng then
          (if 100 < (prev ++ [(⟨lat, lng, ts, ts⟩ : GeoPoint)]).length then
            (prev ++ [(⟨lat, lng, ts, ts⟩ : GeoPoint)]).drop
              ((prev ++ [(⟨lat, lng, ts, ts⟩ : GeoPoint)]).length - 100)
          else prev ++ [(⟨lat, lng, ts, ts⟩ : GeoPoint)])
        else prev := by
  rw [updatePath, hl]

lemma updatePath_length (dist : ℚ → ℚ → ℚ → ℚ → ℚ) (lat lng : ℚ) (ts : ℤ)
    (prev : List GeoPoint) (h : prev.length ≤ 100) :
    (updatePath dist lat lng ts prev).length ≤ 100 := by
  cases hl : prev.getLast? with
  | none => rw [updatePath, hl]; simp
  | some last =>
    rw [updatePath_eval dist lat lng ts prev last hl]
    by_cases hd : 5 < dist last.lat last.lng lat lng
    · rw [if_pos hd]
      by_cases ho : 100 < (prev ++ [(⟨lat, lng, ts, ts⟩ : GeoPoint)]).length
      · rw [if_pos ho, List.length_drop]
        omega
      · rw [if_neg ho]
        omega
    · rw [if_neg hd]
      exact h

lemma updatePath_spaced (dist : ℚ → ℚ → ℚ → ℚ → ℚ) (lat lng : ℚ) (ts : ℤ)
    (prev : List GeoPoint) (h : TrailSpaced dist prev) :
    TrailSpaced dist (updatePath dist lat lng ts prev) := by
  cases hl : prev.getLast? with
  | none => rw [updatePath, hl]; simp [TrailSpaced]
  | some last =>
    rw [updatePath_eval dist lat lng ts prev last hl]
    by_cases hd : 5 < dist last.lat last.lng lat lng
    · rw [if_pos hd]
      have happ : TrailSpaced dist (prev ++ [(⟨lat, lng, ts, ts⟩ : GeoPoint)]) := by
        rw [TrailSpaced, List.chain'_append]
        refine ⟨h, List.chain'_singleton _, ?_⟩
        intro x hx y hy
        rw [hl] at hx
        cases hx
        simp only [List.head?_cons, Option.mem_def, Option.some.injEq] at hy
        subst hy
        exact hd
      by_cases ho : 100 < (prev ++ [(⟨lat, lng, ts, ts⟩ : GeoPoint)]).length
      · rw [if_pos ho]
        exact chain'_drop happ _
      · rw [if_neg ho]
        exact happ
    · rw [if_neg hd]
      exact h

lemma runTrail_inv (dist : ℚ → ℚ → ℚ → ℚ → ℚ) (samples : List (ℚ × ℚ × ℤ)) :
    (runTrail dist samples).length ≤ 100 ∧
    TrailSpaced dist (runTrail dist samples) := by
  rw [runTrail]
  induction samples using List.reverseRecOn with
  | nil => simp [TrailSpaced]
  | append_singleton ss s ih =>
    rw [List.foldl_append, List.foldl_cons, List.foldl_nil]
    exact ⟨updatePath_length _ _ _ _ _ ih.1, updatePath_spaced _ _ _ _ _ ih.2⟩

/-- C3 — trail-buffer invariants: for every stream of samples the visual
trail never exceeds `TRAIL_MAX_POINTS = 100` points and consecutive
stored points are more than `TRAIL_MIN_DISTANCE = 5` apart (hence at
least the threshold apart); a sample within the threshold of the last
stored point leaves the trail unchanged; and when a full buffer accepts a
new point the oldest point is evicted from the head. -/
theorem trail_buffer_invariants (dist : ℚ → ℚ → ℚ → ℚ → ℚ)
    (samples : List (ℚ × ℚ × ℤ)) (lat lng : ℚ) (ts : ℤ)
    (prev : List GeoPoint) (last : GeoPoint) :
    (runTrail dist samples).length ≤ 100 ∧
    TrailSpaced dist (runTrail dist samples) ∧
    (prev.getLast? = some last → ¬ 5 < dist last.lat last.lng lat lng →
      updatePath dist lat lng ts prev = prev) ∧
    (prev.getLast? = some last → 5 < dist last.lat last.lng lat lng →
      prev.length = 100 →
      updatePath dist lat lng ts prev = prev.tail ++ [⟨lat, lng, ts, ts⟩]) := by
  obtain ⟨h1, h2⟩ := runTrail_inv dist samples
  refine ⟨h1, h2, ?_, ?_⟩
  · intro hl hd
    rw [updatePath_eval dist lat lng ts prev last hl, if_neg hd]
  · intro hl hd hlen
    rw [updatePath_eval dist lat lng ts prev last hl, if_pos hd]
    have hlen' : (prev ++ [(⟨lat, lng, ts, ts⟩ : GeoPoint)]).length = 101 := by
      rw [List.length_append, hlen]
      rfl
    rw [if_pos (by omega), hlen']
    have h101 : (101 : ℕ) - 100 = 1 := rfl
    rw [h101, List.drop_append_of_le_length (by omega)]
    rw [List.drop_one]

/-- C3 witness: with a constant distance of `0` (below threshold) the
buffer is left unchanged, and with a constant distance of `10` a full
100-point buffer evicts its head on the next sample. -/
theorem trail_buffer_invariants_witness :
    updatePath (fun _ _ _ _ => 0) 7 7 7 [⟨1, 1, 1, 1⟩] = [⟨1, 1, 1, 1⟩] ∧
    updatePath (fun _ _ _ _ => 10) 7 7 7 (List.replicate 100 ⟨1, 1, 1, 1⟩)
      = (List.replicate 100 (⟨1, 1, 1, 1⟩ : GeoPoint)).tail ++ [⟨7, 7, 7, 7⟩] := by
  constructor
  · exact (trail_buffer_invariants (fun _ _ _ _ => 0) [] 7 7 7 [⟨1, 1, 1, 1⟩]
      ⟨1, 1, 1, 1⟩).2.2.1 rfl (by norm_num)
  · refine (trail_buffer_invariants (fun _ _ _ _ => 10) [] 7 7 7
      (List.replicate 100 ⟨1, 1, 1, 1⟩) ⟨1, 1, 1, 1⟩).2.2.2 ?_ (by norm_num) (by simp)
    rw [List.getLast?_eq_getLast _ (by simp), List.getLast_replicate]

/-! ## Claim C5 (anchor hysteresis) -/

/-- C5 — anchor hysteresis: while the live position stays within
`MAP_UPDATE_THRESHOLD = 40` of the anchor, the anchor never moves (the
update touches only the `isOffCenter` UI flag); beyond the threshold the
anchor moves exactly once, to the live position; and it does not move
again until the distance from the new anchor again exceeds the
threshold. -/
theorem radar_anchor_hysteresis (dist : ℚ → ℚ → ℚ → ℚ → ℚ) (lat lng : ℚ)
    (s : RadarState) :
    (¬ 40 < dist s.anchorLat s.anchorLng lat lng →
      (radarUpdate dist lat lng s).anchorLat = s.anchorLat ∧
      (radarUpdate dist lat lng s).anchorLng = s.anchorLng ∧
      radarUpdate dist lat lng s
        = { s with isOffCenter := decide (10 < dist s.anchorLat s.anchorLng lat lng) }) ∧
    (40 < dist s.anchorLat s.anchorLng lat lng →
      (radarUpdate dist lat lng s).anchorLat = lat ∧
      (radarUpdate dist lat lng s).anchorLng = lng) ∧
    (∀ lat' lng' : ℚ, 40 < dist s.anchorLat s.anchorLng lat lng →
      ¬ 40 < dist lat lng lat' lng' →
      (radarUpdate dist lat' lng' (radarUpdate dist lat lng s)).anchorLat = lat ∧
      (radarUpdate dist lat' lng' (radarUpdate dist lat lng s)).anchorLng = lng) := by
  refine ⟨?_, ?_, ?_⟩
  · intro h
    rw [radarUpdate, if_neg h]
    exact ⟨rfl, rfl, rfl⟩
  · intro h
    rw [radarUpdate, if_pos h]
    exact ⟨rfl, rfl⟩
  · intro lat' lng' h h'
    have ha : (radarUpdate dist lat lng s).anchorLat = lat := by
      rw [radarUpdate, if_pos h]
    have hb : (radarUpdate dist lat lng s).anchorLng = lng := by
      rw [radarUpdate, if_pos h]
    have hcond : ¬ 40 < dist (radarUpdate dist lat lng s).anchorLat
        (radarUpdate dist lat lng s).anchorLng lat' lng' := by
      rw [ha, hb]
      exact h'
    set r := radarUpdate dist lat lng s
    constructor
    · rw [radarUpdate, if_neg hcond]
      exact ha
    · rw [radarUpdate, if_neg hcond]
      exact hb

/-- C5 witness: with a distance function that returns `50` from the first
anchor and `30` from the moved anchor, the anchor moves to the live
position once and then stays. -/
theorem radar_anchor_hysteresis_witness :
    (radarUpdate (fun a _ _ _ => if a = 0 then 50 else 30) 1 1
        (radarUpdate (fun a _ _ _ => if a = 0 then 50 else 30) 2 3
          ⟨0, 0, false, true, false⟩)).anchorLat = 2 ∧
    (radarUpdate (fun a _ _ _ => if a = 0 then 50 else 30) 1 1
        (radarUpdate (fun a _ _ _ => if a = 0 then 50 else 30) 2 3
          ⟨0, 0, false, true, false⟩)).anchorLng = 3 :=
  (radar_anchor_hysteresis (fun a _ _ _ => if a = 0 then 50 else 30) 2 3
    ⟨0, 0, false, true, false⟩).2.2 1 1 (by norm_num) (by norm_num)

/-! ## Claim C9 (display-mode rotations) -/

/-- C9 — in heading-up mode the whole scene is rotated by `-heading` and
the user marker by `0`; in north-up mode the scene is not rotated and the
marker is rotated by `heading`. -/
theorem mapMode_rotations (heading : ℚ) :
    sceneRotation .headingUp heading = -heading ∧
    markerRotation .headingUp heading = 0 ∧
    sceneRotation .northUp heading = 0 ∧
    markerRotation .northUp heading = heading := by
  refine ⟨rfl, rfl, ?_, rfl⟩
  show -(0 : ℚ) = 0
  norm_num

/-! ## Claim C8 (projection stability) -/

lemma atan2_zero_one : atan2 0 1 = 0 := by
  have h : ({ re := 1, im := 0 } : ℂ) = 1 := by
    apply Complex.ext <;> simp
  rw [atan2, h, Complex.arg_one]

/-- C8 — projection stability: the anchor projects onto itself at `(0,0)`
for every zoom level; the haversine distance between identical coordinates
is `0`; and a point `0.001°` north of the anchor projects to a negative
`y` pixel coordinate (whenever the anchor is off the poles, so that
`cos(anchorLat)` is positive).  The modelled functions are total. -/
theorem geoMath_stability (lat lng lat' lng' : ℝ) (zoom : ℕ) :
    geoToPixels lat lng lat lng zoom = (0, 0) ∧
    getDistance lat' lng' lat' lng' = 0 ∧
    (0 < Real.cos (lat * Real.pi / 180) →
      (geoToPixels (lat + 0.001) lng lat lng zoom).2 < 0) := by
  refine ⟨?_, ?_, ?_⟩
  · rw [geoToPixels]
    simp
  · rw [getDistance]
    simp only [sub_self, zero_mul, zero_div, Real.sin_zero, mul_zero, zero_add,
      Real.sqrt_zero, sub_zero, Real.sqrt_one]
    rw [atan2_zero_one]
    ring
  · intro hcos
    rw [geoToPixels]
    have hm : (0 : ℝ) < 40075016.686 * Real.cos (lat * Real.pi / 180) / 2 ^ (zoom + 8) := by
      have h2 : (0 : ℝ) < 2 ^ (zoom + 8) := by positivity
      have hnum : (0 : ℝ) < 40075016.686 * Real.cos (lat * Real.pi / 180) := by
        have h40 : (0 : ℝ) < 40075016.686 := by norm_num
        exact mul_pos h40 hcos
      exact div_pos hnum h2
    have hd : (0 : ℝ) < (lat + 0.001 - lat) * 111319.9 := by
      have hsub : (lat + 0.001 - lat) = 0.001 := by ring
      rw [hsub]
      norm_num
    show -((lat + 0.001 - lat) * 111319.9) /
        (40075016.686 * Real.cos (lat * Real.pi / 180) / 2 ^ (zoom + 8)) < 0
    apply div_neg_of_neg_of_pos _ hm
    linarith

/-- C8 witness at the equator anchor `(0, 0)` and zoom `17`. -/
theorem geoMath_stability_witness :
    (geoToPixels (0 + 0.001) 0 0 0 17).2 < 0 := by
  refine (geoMath_stability 0 0 0 0 17).2.2 ?_
  rw [show (0 : ℝ) * Real.pi / 180 = 0 by ring, Real.cos_zero]
  norm_num

end GeoTracking
